import Mathlib

set_option linter.unnecessarySeqFocus false
set_option maxRecDepth 4096

/-!
Shallow embedding of the `native_pdf_engine` plugin sources
(`linux/native_pdf_engine_linux.cc` and
`windows/native_pdf_engine_windows.cpp`).

Both platform engines are single-threaded, event-driven state machines:
`Generate` stores the callback, resolves the output path, and starts an
asynchronous pipeline; external events (load-changed / navigation-completed
signals, print completion, WebView2 environment and controller creation)
drive handlers that eventually call `PdfEngine::Complete`, which invokes the
stored callback at most once.

The embedding models each engine as an explicit state record plus a step
function over an event script.  External outcomes the C++ code merely
observes (mkstemp success, GetTempFileNameW success, navigation success,
print success, whether the temp file opens and reads back) are oracle
parameters carried by the events.  Side effects visible outside the engine
(callback invocations, webview creation, load/navigate commands, print
commands, file deletions) are emitted as an action trace.  A one-bit file
system tracks whether a file currently exists at the engine's resolved
output path.
-/

/-- One observed invocation of the `PdfCompletionCallback` (see
`native_pdf_engine.h`): `callback(success, error_message, data, length,
user_data)`.  A null `error_message` or null `data` pointer is `none`;
`length` is the `int32_t` byte count (file sizes here are far below `2^31`,
so the cast is the identity and we use `Nat`). -/
structure Invocation where
  success : Bool
  errorMessage : Option String
  data : Option (List Nat)
  length : Nat
  userData : Nat
deriving DecidableEq, Repr

/-- Credit accounting for the stored callback pointer: `1` while
`callback_` is non-null, `0` once it is null. -/
def credit (b : Bool) : Nat := if b then 1 else 0

/-- The argument shape every `Complete` call site maintains: a failure
passes a null data pointer and length `0`; a success passes a null error
message. -/
def contractOK (i : Invocation) : Bool :=
  if i.success then i.errorMessage.isNone
  else i.data.isNone && i.length == 0

/-- The statements of `PdfEngine::Complete` (identical on both platforms,
linux lines 151-157 and windows lines 216-222), at statement granularity:
the guard reads `callback_`, the callback is invoked, and only then is
`callback_` assigned `nullptr`. -/
inductive CompleteOp
  | checkCallback
  | invokeCallback
  | clearCallback
deriving DecidableEq, Repr

/-- The statement order of `PdfEngine::Complete` when `callback_` is set,
straight from the source: check, invoke, then clear. -/
def completeBody : List CompleteOp :=
  [CompleteOp.checkCallback, CompleteOp.invokeCallback, CompleteOp.clearCallback]

/-- Whether an operation sequence consumes (clears) the stored callback
before the first invocation of it. -/
def consumesBeforeInvoke : List CompleteOp → Bool
  | [] => false
  | CompleteOp.clearCallback :: _ => true
  | CompleteOp.invokeCallback :: _ => false
  | CompleteOp.checkCallback :: ops => consumesBeforeInvoke ops

/-- Arguments of `PdfEngine::Generate(content, is_url, output_path,
callback, user_data)`.  `output_path` is a C string: `none` models the null
pointer, `some p` a pointer to `p` (the code treats null and empty string
alike via `output_path && strlen(output_path) > 0`).  `callbackSet` records
whether the `callback` argument is non-null. -/
structure GenArgs where
  content : String
  is_url : Bool
  output_path : Option String
  callbackSet : Bool
  user_data : Nat
deriving DecidableEq, Repr

/-- Does `Generate` see a caller-supplied output path?  Mirrors
`output_path && strlen(output_path) > 0`. -/
def GenArgs.pathGiven (args : GenArgs) : Bool :=
  match args.output_path with
  | some p => decide (0 < p.length)
  | none => false

namespace Linux

/-- `WebKitLoadEvent` values delivered by the `load-changed` signal. -/
inductive WebKitLoadEvent
  | started
  | redirected
  | committed
  | finished
deriving DecidableEq, Repr

/-- Externally visible effects of the linux engine. -/
inductive Action
  | invoke (i : Invocation)
  | createWebview
  | loadUri (u : String)
  | loadHtml (h : String)
  | printIssued (target : String)
  | unlinkAttempt (p : String)
deriving DecidableEq, Repr

/-- The fields of the linux `PdfEngine` the claims depend on, plus the
bookkeeping the embedding needs: `webview_` records that the webview exists
and `load-changed` is connected; `printConnected` that a print operation
with its `finished`/`failed` signals exists; `fileOnDisk` whether a file
currently exists at `output_path_`. -/
structure State where
  callback_ : Bool
  user_data_ : Nat
  output_path_ : String
  is_temp_file_ : Bool
  webview_ : Bool
  printConnected : Bool
  fileOnDisk : Bool
deriving DecidableEq, Repr

/-- Engine state right after `new PdfEngine()` (member initializers:
`callback_ = nullptr`, `is_temp_file_ = false`, no webview). -/
def initialState : State :=
  { callback_ := false, user_data_ := 0, output_path_ := ""
    is_temp_file_ := false, webview_ := false, printConnected := false
    fileOnDisk := false }

/-- `PdfEngine::Complete` (linux lines 151-157): if `callback_` is set,
invoke it with the given arguments and then clear it; otherwise do
nothing. -/
def State.Complete (s : State) (success : Bool) (error : Option String)
    (data : Option (List Nat)) (length : Nat) : State × List Action :=
  if s.callback_ then
    ({ s with callback_ := false },
     [Action.invoke
        { success := success, errorMessage := error, data := data
          length := length, userData := s.user_data_ }])
  else (s, [])

/-- `PdfEngine::Complete`, specialised to a callback whose body re-enters
`Complete` before returning (for example via a nested event loop that
delivers a second terminal event during the callback).  Statements run in
source order: the outer guard reads `callback_`, the callback body runs —
and the inner `Complete` it performs still sees `callback_` set, because
the clear on line 155 has not executed yet — then the outer clear runs.
Returns the final state and the total number of callback invocations. -/
def completeReentrant (s : State) : State × Nat :=
  if s.callback_ then
    let inner : State × Nat :=
      if s.callback_ then ({ s with callback_ := false }, 1) else (s, 0)
    ({ inner.1 with callback_ := false }, 1 + inner.2)
  else (s, 0)

/-- `PdfEngine::Print` (linux lines 80-113): create a print operation
targeting `file://output_path_`, connect its `finished` and `failed`
signals, and start it. -/
def State.Print (s : State) : State × List Action :=
  ({ s with printConnected := true }, [Action.printIssued s.output_path_])

/-- `PdfEngine::OnLoadChanged` (linux lines 71-78): only
`WEBKIT_LOAD_FINISHED` triggers printing; every other load event falls
through with no effect. -/
def OnLoadChanged (s : State) (load_event : WebKitLoadEvent) :
    State × List Action :=
  if load_event = WebKitLoadEvent.finished then s.Print else (s, [])

/-- `PdfEngine::OnPrintFinished` (linux lines 115-142).  For a temp file:
open it (`openOk`), read it fully (`readOk`, yielding `bytes`); on read
success complete with the buffer, on read failure complete with a read
error; in both open-success branches `unlink` the temp file afterwards.
If the open fails, complete with an open error and do not unlink.  For a
caller-supplied path, complete with success and no buffer. -/
def OnPrintFinished (s : State) (openOk readOk : Bool) (bytes : List Nat) :
    State × List Action :=
  if s.is_temp_file_ then
    if openOk then
      if readOk then
        let r := s.Complete true none (some bytes) bytes.length
        ({ r.1 with fileOnDisk := false },
         r.2 ++ [Action.unlinkAttempt s.output_path_])
      else
        let r := s.Complete false (some "Failed to read temp PDF file") none 0
        ({ r.1 with fileOnDisk := false },
         r.2 ++ [Action.unlinkAttempt s.output_path_])
    else
      s.Complete false (some "Failed to open back temp PDF file") none 0
  else
    s.Complete true none none 0

/-- `PdfEngine::OnPrintFailed` (linux lines 144-149): complete with the
provider's error message, or `"Unknown error"` when it is null. -/
def OnPrintFailed (s : State) (error : Option String) : State × List Action :=
  s.Complete false (some (error.getD "Unknown error")) none 0

/-- The tail of `Generate` shared by both path branches (linux lines
51-67): create the webview, connect `load-changed`, and load the content
as a URI or as HTML according to `is_url`. -/
def startLoad (s : State) (args : GenArgs) : State × List Action :=
  let s1 := { s with webview_ := true }
  if args.is_url then
    (s1, [Action.createWebview, Action.loadUri args.content])
  else
    (s1, [Action.createWebview, Action.loadHtml args.content])

/-- `PdfEngine::Generate` (linux lines 28-68).  Stores the callback and
user data; a non-empty `output_path` is used as given, otherwise `mkstemp`
is consulted (`mkstempResult` is its outcome: `some temp` creates the file
on disk, `none` fails).  On `mkstemp` failure it completes immediately
with `"Failed to create temp file"` and returns before any webview
exists.  Otherwise it creates the webview and starts loading. -/
def Generate (s : State) (args : GenArgs) (mkstempResult : Option String) :
    State × List Action :=
  let s0 := { s with callback_ := args.callbackSet, user_data_ := args.user_data }
  if args.pathGiven then
    startLoad
      { s0 with output_path_ := args.output_path.getD "", is_temp_file_ := false }
      args
  else
    match mkstempResult with
    | some temp =>
        startLoad
          { s0 with output_path_ := temp, is_temp_file_ := true, fileOnDisk := true }
          args
    | none =>
        s0.Complete false (some "Failed to create temp file") none 0

/-- External events the linux engine can receive.  `loadFailed` is
WebKit's `load-failed` signal: the engine never connects a handler for it
(only `load-changed` is connected, line 61), so delivering it must have no
effect.  `printFinished` carries the read-back oracles; its delivery means
the print operation ran to completion and wrote the target file. -/
inductive Event
  | loadChanged (e : WebKitLoadEvent)
  | loadFailed (msg : String)
  | printFinished (openOk readOk : Bool) (bytes : List Nat)
  | printFailed (error : Option String)
deriving DecidableEq, Repr

/-- Dispatch one event: a signal only reaches its handler if the engine
connected it (webview exists for `load-changed`; a print operation exists
for `finished`/`failed`).  `load-failed` has no handler. -/
def step (s : State) (ev : Event) : State × List Action :=
  match ev with
  | Event.loadChanged e => if s.webview_ then OnLoadChanged s e else (s, [])
  | Event.loadFailed _ => (s, [])
  | Event.printFinished openOk readOk bytes =>
      if s.printConnected then
        OnPrintFinished { s with fileOnDisk := true } openOk readOk bytes
      else (s, [])
  | Event.printFailed error =>
      if s.printConnected then OnPrintFailed s error else (s, [])

/-- Run a whole event script, concatenating the emitted actions. -/
def run : State → List Event → State × List Action
  | s, [] => (s, [])
  | s, ev :: evs =>
      let r1 := step s ev
      let r2 := run r1.1 evs
      (r2.1, r1.2 ++ r2.2)

/-- One complete linux session: `Generate` on a fresh engine followed by
the event script. -/
def engineRun (args : GenArgs) (mkstempResult : Option String)
    (evs : List Event) : State × List Action :=
  let r1 := Generate initialState args mkstempResult
  let r2 := run r1.1 evs
  (r2.1, r1.2 ++ r2.2)

/-- The callback invocations contained in an action trace. -/
def invocations : List Action → List Invocation
  | [] => []
  | Action.invoke i :: acts => i :: invocations acts
  | _ :: acts => invocations acts

/-- How many `unlink` attempts a trace contains. -/
def unlinkCount : List Action → Nat
  | [] => 0
  | Action.unlinkAttempt _ :: acts => unlinkCount acts + 1
  | _ :: acts => unlinkCount acts

/-- How many print operations a trace issues. -/
def printIssuedCount : List Action → Nat
  | [] => 0
  | Action.printIssued _ :: acts => printIssuedCount acts + 1
  | _ :: acts => printIssuedCount acts

/-- Is this event a `load-changed` delivery of `WEBKIT_LOAD_FINISHED`? -/
def isLoadFinished : Event → Bool
  | Event.loadChanged e => e = WebKitLoadEvent.finished
  | _ => false

/-- `NativePdf_DestroyEngine` (linux lines 177-180): `delete` runs only on
a non-null handle.  Returns whether the engine was deleted. -/
def NativePdf_DestroyEngine (engine : Option State) : Bool :=
  engine.isSome

/-- `NativePdf_Generate` (linux lines 182-190): forwards to
`PdfEngine::Generate` only when the handle is non-null; a null handle is
left untouched and nothing happens. -/
def NativePdf_Generate (engine : Option State) (args : GenArgs)
    (mkstempResult : Option String) : Option State × List Action :=
  match engine with
  | none => (none, [])
  | some s =>
      let r := Generate s args mkstempResult
      (some r.1, r.2)

end Linux

namespace Windows

/-- Externally visible effects of the windows engine. -/
inductive Action
  | invoke (i : Invocation)
  | envRequested
  | controllerRequested
  | navigate (u : String)
  | navigateToString (h : String)
  | printToPdfIssued (target : String)
  | deleteFileAttempt (p : String)
deriving DecidableEq, Repr

/-- The fields of the windows `PdfEngine` the claims depend on, plus
bookkeeping: `content_` and `is_url_` model the values captured by the
nested lambdas; `envPending` and `controllerPending` the one-shot
environment/controller completion handlers; `navConnected` the persistent
`NavigationCompleted` registration; `printPending` the one-shot
`PrintToPdfCompleted` handler; `fileOnDisk` whether a file currently
exists at `output_path_`. -/
structure State where
  callback_ : Bool
  user_data_ : Nat
  output_path_ : String
  is_temp_file_ : Bool
  content_ : String
  is_url_ : Bool
  envPending : Bool
  controllerPending : Bool
  controller_ : Bool
  webview_ : Bool
  navConnected : Bool
  printPending : Bool
  fileOnDisk : Bool
deriving DecidableEq, Repr

/-- Engine state right after `new PdfEngine()`. -/
def initialState : State :=
  { callback_ := false, user_data_ := 0, output_path_ := ""
    is_temp_file_ := false, content_ := "", is_url_ := false
    envPending := false, controllerPending := false, controller_ := false
    webview_ := false, navConnected := false, printPending := false
    fileOnDisk := false }

/-- `PdfEngine::Complete` (windows lines 216-222): identical to the linux
version — invoke the stored callback if set, then clear it. -/
def State.Complete (s : State) (success : Bool) (error : Option String)
    (data : Option (List Nat)) (length : Nat) : State × List Action :=
  if s.callback_ then
    ({ s with callback_ := false },
     [Action.invoke
        { success := success, errorMessage := error, data := data
          length := length, userData := s.user_data_ }])
  else (s, [])

/-- `PdfEngine::Generate` (windows lines 63-156).  Stores the callback and
user data; a non-empty `output_path` is used as given, otherwise
`GetTempPathW`/`GetTempFileNameW` produce `tempName` — the return value is
NOT checked, so the engine stores the path and sets `is_temp_file_` whether
or not the call succeeded (`tempOk` only determines whether the file was
actually created on disk).  It then requests the WebView2 environment;
nothing else happens synchronously. -/
def Generate (s : State) (args : GenArgs) (tempOk : Bool) (tempName : String) :
    State × List Action :=
  let s0 := { s with callback_ := args.callbackSet, user_data_ := args.user_data
                     content_ := args.content, is_url_ := args.is_url }
  let s1 :=
    if args.pathGiven then
      { s0 with output_path_ := args.output_path.getD "", is_temp_file_ := false }
    else
      { s0 with output_path_ := tempName, is_temp_file_ := true
                fileOnDisk := tempOk }
  ({ s1 with envPending := true }, [Action.envRequested])

/-- The environment-completed handler (windows lines 92-97, 99): on a
failed `HRESULT` complete with `"Failed to create environment"`; otherwise
request controller creation. -/
def OnEnvCompleted (s : State) (ok : Bool) : State × List Action :=
  if ok then ({ s with controllerPending := true }, [Action.controllerRequested])
  else s.Complete false (some "Failed to create environment") none 0

/-- The controller-completed handler (windows lines 103-150): on a failed
`HRESULT` complete with `"Failed to create controller"`; otherwise store
the controller, obtain the webview, set bounds, issue the navigation
(`Navigate` for a URL, `NavigateToString` for raw HTML), and register the
`NavigationCompleted` handler. -/
def OnControllerCompleted (s : State) (ok : Bool) : State × List Action :=
  if ok then
    let s1 := { s with controller_ := true, webview_ := true, navConnected := true }
    if s.is_url_ then (s1, [Action.navigate s.content_])
    else (s1, [Action.navigateToString s.content_])
  else s.Complete false (some "Failed to create controller") none 0

/-- The error message produced when the `ICoreWebView2_7` cast fails
(windows lines 170-173). -/
def tooOldMsg : String :=
  "Failed to obtain ICoreWebView2_7 interface. WebView2 Runtime might be too old."

/-- `PdfEngine::Print` (windows lines 159-214 header): bail out silently
if the webview is null; if the cast to `ICoreWebView2_7` fails
(`webview7Ok = false`) complete with the too-old-runtime message without
printing; otherwise issue `PrintToPdf` against `output_path_` and register
its one-shot completion handler. -/
def Print (s : State) (webview7Ok : Bool) : State × List Action :=
  if s.webview_ then
    if webview7Ok then
      ({ s with printPending := true }, [Action.printToPdfIssued s.output_path_])
    else
      s.Complete false (some tooOldMsg) none 0
  else (s, [])

/-- The `NavigationCompleted` handler (windows lines 129-148): on
`IsSuccess = FALSE` complete with `"Navigation failed"` and return;
otherwise call `Print`. -/
def OnNavigationCompleted (s : State) (isSuccess : Bool) (webview7Ok : Bool) :
    State × List Action :=
  if isSuccess then Print s webview7Ok
  else s.Complete false (some "Navigation failed") none 0

/-- The `PrintToPdfCompleted` handler (windows lines 182-212).  A failed
`HRESULT` or `is_successful = FALSE` completes with `"PrintToPdf failed"`.
On success the surface has written the target file; for a temp file the
engine opens it (`openOk`), reads it (`readOk` giving `bytes`), completes
with the buffer or a read error, and calls `DeleteFileW` in both
open-success branches; if the open fails it completes with
`"Failed to open output PDF file"` and does not delete.  For a
caller-supplied path it completes with success and no buffer. -/
def OnPrintToPdfCompleted (s : State) (hrOk isSuccessful : Bool)
    (openOk readOk : Bool) (bytes : List Nat) : State × List Action :=
  if hrOk && isSuccessful then
    let s1 := { s with fileOnDisk := true }
    if s1.is_temp_file_ then
      if openOk then
        if readOk then
          let r := s1.Complete true none (some bytes) bytes.length
          ({ r.1 with fileOnDisk := false },
           r.2 ++ [Action.deleteFileAttempt s1.output_path_])
        else
          let r := s1.Complete false (some "Failed to read temp PDF file") none 0
          ({ r.1 with fileOnDisk := false },
           r.2 ++ [Action.deleteFileAttempt s1.output_path_])
      else
        s1.Complete false (some "Failed to open output PDF file") none 0
    else
      s1.Complete true none none 0
  else
    s.Complete false (some "PrintToPdf failed") none 0

/-- External events the windows engine can receive: completion of the
environment request, of the controller request, of a navigation, and of a
`PrintToPdf` call (carrying its `HRESULT`, success flag, and the read-back
oracles). -/
inductive Event
  | envCompleted (ok : Bool)
  | controllerCompleted (ok : Bool)
  | navigationCompleted (isSuccess : Bool)
  | printToPdfCompleted (hrOk isSuccessful openOk readOk : Bool) (bytes : List Nat)
deriving DecidableEq, Repr

/-- Dispatch one event.  The environment, controller and print handlers
are one-shot `Callback` objects: they fire only while pending and are
consumed by delivery.  The `NavigationCompleted` registration persists.
`webview7Ok` is a property of the installed WebView2 runtime (whether the
`ICoreWebView2_7` interface is available), constant for the whole run. -/
def step (s : State) (webview7Ok : Bool) (ev : Event) : State × List Action :=
  match ev with
  | Event.envCompleted ok =>
      if s.envPending then OnEnvCompleted { s with envPending := false } ok
      else (s, [])
  | Event.controllerCompleted ok =>
      if s.controllerPending then
        OnControllerCompleted { s with controllerPending := false } ok
      else (s, [])
  | Event.navigationCompleted ok =>
      if s.navConnected then OnNavigationCompleted s ok webview7Ok
      else (s, [])
  | Event.printToPdfCompleted hrOk isSuccessful openOk readOk bytes =>
      if s.printPending then
        OnPrintToPdfCompleted { s with printPending := false } hrOk isSuccessful
          openOk readOk bytes
      else (s, [])

/-- Run a whole event script, concatenating the emitted actions. -/
def run (webview7Ok : Bool) : State → List Event → State × List Action
  | s, [] => (s, [])
  | s, ev :: evs =>
      let r1 := step s webview7Ok ev
      let r2 := run webview7Ok r1.1 evs
      (r2.1, r1.2 ++ r2.2)

/-- One complete windows session: `Generate` on a fresh engine followed by
the event script. -/
def engineRun (args : GenArgs) (tempOk : Bool) (tempName : String)
    (webview7Ok : Bool) (evs : List Event) : State × List Action :=
  let r1 := Generate initialState args tempOk tempName
  let r2 := run webview7Ok r1.1 evs
  (r2.1, r1.2 ++ r2.2)

/-- The callback invocations contained in an action trace. -/
def invocations : List Action → List Invocation
  | [] => []
  | Action.invoke i :: acts => i :: invocations acts
  | _ :: acts => invocations acts

/-- How many `DeleteFileW` attempts a trace contains. -/
def deleteCount : List Action → Nat
  | [] => 0
  | Action.deleteFileAttempt _ :: acts => deleteCount acts + 1
  | _ :: acts => deleteCount acts

/-- How many `PrintToPdf` calls a trace issues. -/
def printIssuedCount : List Action → Nat
  | [] => 0
  | Action.printToPdfIssued _ :: acts => printIssuedCount acts + 1
  | _ :: acts => printIssuedCount acts

/-- Is this event a successful navigation completion? -/
def isNavSuccess : Event → Bool
  | Event.navigationCompleted ok => ok
  | _ => false

/-- `NativePdf_DestroyEngine` (windows lines 242-245): `delete` runs only
on a non-null handle.  Returns whether the engine was deleted. -/
def NativePdf_DestroyEngine (engine : Option State) : Bool :=
  engine.isSome

/-- `NativePdf_Generate` (windows lines 247-255): forwards to
`PdfEngine::Generate` only when the handle is non-null; a null handle is
left untouched and nothing happens. -/
def NativePdf_Generate (engine : Option State) (args : GenArgs)
    (tempOk : Bool) (tempName : String) : Option State × List Action :=
  match engine with
  | none => (none, [])
  | some s =>
      let r := Generate s args tempOk tempName
      (some r.1, r.2)

end Windows

/-! ### Invariant lemmas, linux engine -/

/-- `invocations` distributes over trace concatenation. -/
theorem Linux.invocations_append (as bs : List Action) :
    invocations (as ++ bs) = invocations as ++ invocations bs := by
  induction as with
  | nil => simp [invocations]
  | cons a as ih => cases a <;> simp [invocations, ih]

/-- `unlinkCount` distributes over trace concatenation. -/
theorem Linux.unlinkCount_append (as bs : List Action) :
    unlinkCount (as ++ bs) = unlinkCount as + unlinkCount bs := by
  induction as with
  | nil => simp [unlinkCount]
  | cons a as ih => cases a <;> simp [unlinkCount, ih] <;> try omega

/-- `printIssuedCount` distributes over trace concatenation. -/
theorem Linux.printIssuedCount_append (as bs : List Action) :
    printIssuedCount (as ++ bs) = printIssuedCount as + printIssuedCount bs := by
  induction as with
  | nil => simp [printIssuedCount]
  | cons a as ih => cases a <;> simp [printIssuedCount, ih] <;> try omega

/-- `Complete` consumes exactly one unit of callback credit per emitted
invocation: credit before equals invocations emitted plus credit after. -/
theorem Linux.complete_credit (s : State) (a : Bool) (b : Option String)
    (c : Option (List Nat)) (d : Nat) :
    (invocations (s.Complete a b c d).2).length
      + credit (s.Complete a b c d).1.callback_ = credit s.callback_ := by
  cases hcb : s.callback_ <;> simp [State.Complete, invocations, credit, hcb]

/-- Credit conservation for a single dispatched linux event. -/
theorem Linux.step_credit (s : State) (ev : Event) :
    (invocations (step s ev).2).length + credit (step s ev).1.callback_
      = credit s.callback_ := by
  obtain ⟨cb, ud, op, itf, wv, pc, fd⟩ := s
  cases ev with
  | loadChanged e =>
      cases wv <;> cases e <;> cases cb <;>
        simp [step, OnLoadChanged, State.Print, invocations, credit]
  | loadFailed msg => cases cb <;> simp [step, invocations, credit]
  | printFinished openOk readOk bytes =>
      cases pc <;> cases itf <;> cases openOk <;> cases readOk <;> cases cb <;>
        simp [step, OnPrintFinished, State.Complete, invocations_append,
          invocations, credit]
  | printFailed error =>
      cases pc <;> cases cb <;>
        simp [step, OnPrintFailed, State.Complete, invocations, credit]

/-- Credit conservation for a whole linux event script. -/
theorem Linux.run_credit (evs : List Event) (s : State) :
    (invocations (run s evs).2).length + credit (run s evs).1.callback_
      = credit s.callback_ := by
  induction evs generalizing s with
  | nil => simp [run, invocations]
  | cons ev evs ih =>
      have h1 := step_credit s ev
      have h2 := ih (step s ev).1
      simp only [run, invocations_append, List.length_append]
      omega

/-- `Generate` establishes the credit of the callback it was handed. -/
theorem Linux.generate_credit (s : State) (args : GenArgs)
    (mk : Option String) :
    (invocations (Generate s args mk).2).length
      + credit (Generate s args mk).1.callback_ = credit args.callbackSet := by
  cases hp : args.pathGiven <;> cases mk <;>
    cases hcb : args.callbackSet <;> cases hu : args.is_url <;>
    simp [Generate, startLoad, State.Complete, invocations, credit, hp, hcb, hu]

/-- Every invocation a dispatched linux event emits respects the
null-data / null-error argument shape. -/
theorem Linux.step_contract (s : State) (ev : Event) :
    (invocations (step s ev).2).all contractOK = true := by
  obtain ⟨cb, ud, op, itf, wv, pc, fd⟩ := s
  cases ev with
  | loadChanged e =>
      cases wv <;> cases e <;>
        simp [step, OnLoadChanged, State.Print, invocations]
  | loadFailed msg => simp [step, invocations]
  | printFinished openOk readOk bytes =>
      cases pc <;> cases itf <;> cases openOk <;> cases readOk <;> cases cb <;>
        simp [step, OnPrintFinished, State.Complete, invocations_append,
          invocations, contractOK]
  | printFailed error =>
      cases pc <;> cases cb <;>
        simp [step, OnPrintFailed, State.Complete, invocations, contractOK]

/-- Argument-shape discipline for a whole linux event script. -/
theorem Linux.run_contract (evs : List Event) (s : State) :
    (invocations (run s evs).2).all contractOK = true := by
  induction evs generalizing s with
  | nil => simp [run, invocations]
  | cons ev evs ih =>
      have h1 := step_contract s ev
      have h2 := ih (step s ev).1
      simp only [run, invocations_append, List.all_append]
      simp [h1, h2]

/-- `Generate` only emits invocations respecting the argument shape. -/
theorem Linux.generate_contract (s : State) (args : GenArgs)
    (mk : Option String) :
    (invocations (Generate s args mk).2).all contractOK = true := by
  cases hp : args.pathGiven <;> cases mk <;>
    cases hcb : args.callbackSet <;> cases hu : args.is_url <;>
    simp [Generate, startLoad, State.Complete, invocations, contractOK, hp,
      hcb, hu]

/-- An event that is not `load-changed FINISHED` never issues a print
operation on linux. -/
theorem Linux.step_no_print (s : State) (ev : Event)
    (h : isLoadFinished ev = false) :
    printIssuedCount (step s ev).2 = 0 := by
  obtain ⟨cb, ud, op, itf, wv, pc, fd⟩ := s
  cases ev with
  | loadChanged e =>
      cases wv <;> cases e <;>
        simp_all [step, OnLoadChanged, State.Print, printIssuedCount,
          isLoadFinished]
  | loadFailed msg => simp [step, printIssuedCount]
  | printFinished openOk readOk bytes =>
      cases pc <;> cases itf <;> cases openOk <;> cases readOk <;> cases cb <;>
        simp [step, OnPrintFinished, State.Complete, printIssuedCount_append,
          printIssuedCount]
  | printFailed error =>
      cases pc <;> cases cb <;>
        simp [step, OnPrintFailed, State.Complete, printIssuedCount]

/-- A linux script that never delivers `load-changed FINISHED` never
issues a print operation. -/
theorem Linux.run_no_print (evs : List Event) (s : State)
    (h : evs.all (fun ev => !isLoadFinished ev) = true) :
    printIssuedCount (run s evs).2 = 0 := by
  induction evs generalizing s with
  | nil => simp [run, printIssuedCount]
  | cons ev evs ih =>
      simp only [List.all_cons, Bool.and_eq_true, Bool.not_eq_true'] at h
      have h1 := step_no_print s ev h.1
      have h2 := ih (step s ev).1 h.2
      simp only [run, printIssuedCount_append]
      omega

/-- `Generate` itself never issues a print operation. -/
theorem Linux.generate_no_print (s : State) (args : GenArgs)
    (mk : Option String) :
    printIssuedCount (Generate s args mk).2 = 0 := by
  cases hp : args.pathGiven <;> cases mk <;>
    cases hcb : args.callbackSet <;> cases hu : args.is_url <;>
    simp [Generate, startLoad, State.Complete, printIssuedCount, hp, hcb, hu]

/-! ### Invariant lemmas, windows engine -/

/-- `invocations` distributes over trace concatenation. -/
theorem Windows.invocations_append_win (as bs : List Action) :
    invocations (as ++ bs) = invocations as ++ invocations bs := by
  induction as with
  | nil => simp [invocations]
  | cons a as ih => cases a <;> simp [invocations, ih]

/-- `deleteCount` distributes over trace concatenation. -/
theorem Windows.deleteCount_append (as bs : List Action) :
    deleteCount (as ++ bs) = deleteCount as + deleteCount bs := by
  induction as with
  | nil => simp [deleteCount]
  | cons a as ih => cases a <;> simp [deleteCount, ih] <;> try omega

/-- `printIssuedCount` distributes over trace concatenation. -/
theorem Windows.printIssuedCount_append_win (as bs : List Action) :
    printIssuedCount (as ++ bs) = printIssuedCount as + printIssuedCount bs := by
  induction as with
  | nil => simp [printIssuedCount]
  | cons a as ih => cases a <;> simp [printIssuedCount, ih] <;> try omega

/-- Credit conservation for a single dispatched windows event. -/
theorem Windows.step_credit_win (s : State) (wv7 : Bool) (ev : Event) :
    (invocations (step s wv7 ev).2).length + credit (step s wv7 ev).1.callback_
      = credit s.callback_ := by
  obtain ⟨cb, ud, op, itf, ct, iu, ep, cp, ctl, wv, nc, pp, fd⟩ := s
  cases ev with
  | envCompleted ok =>
      cases ep <;> cases ok <;> cases cb <;>
        simp [step, OnEnvCompleted, State.Complete, invocations, credit]
  | controllerCompleted ok =>
      cases cp <;> cases ok <;> cases iu <;> cases cb <;>
        simp [step, OnControllerCompleted, State.Complete, invocations, credit]
  | navigationCompleted ok =>
      cases nc <;> cases ok <;> cases wv <;> cases wv7 <;> cases cb <;>
        simp [step, OnNavigationCompleted, Print, State.Complete, invocations,
          credit]
  | printToPdfCompleted hrOk isSuccessful openOk readOk bytes =>
      cases pp <;> cases hrOk <;> cases isSuccessful <;> cases itf <;>
        cases openOk <;> cases readOk <;> cases cb <;>
        simp [step, OnPrintToPdfCompleted, State.Complete, invocations_append_win,
          invocations, credit]

/-- Credit conservation for a whole windows event script. -/
theorem Windows.run_credit_win (wv7 : Bool) (evs : List Event) (s : State) :
    (invocations (run wv7 s evs).2).length
      + credit (run wv7 s evs).1.callback_ = credit s.callback_ := by
  induction evs generalizing s with
  | nil => simp [run, invocations]
  | cons ev evs ih =>
      have h1 := step_credit_win s wv7 ev
      have h2 := ih (step s wv7 ev).1
      simp only [run, invocations_append_win, List.length_append]
      omega

/-- `Generate` establishes the credit of the callback it was handed and
emits no invocation itself. -/
theorem Windows.generate_credit_win (s : State) (args : GenArgs) (tempOk : Bool)
    (tempName : String) :
    (invocations (Generate s args tempOk tempName).2).length
      + credit (Generate s args tempOk tempName).1.callback_
      = credit args.callbackSet := by
  cases hp : args.pathGiven <;> cases hcb : args.callbackSet <;>
    simp [Generate, invocations, credit, hp, hcb]

/-- Every invocation a dispatched windows event emits respects the
null-data / null-error argument shape. -/
theorem Windows.step_contract_win (s : State) (wv7 : Bool) (ev : Event) :
    (invocations (step s wv7 ev).2).all contractOK = true := by
  obtain ⟨cb, ud, op, itf, ct, iu, ep, cp, ctl, wv, nc, pp, fd⟩ := s
  cases ev with
  | envCompleted ok =>
      cases ep <;> cases ok <;> cases cb <;>
        simp [step, OnEnvCompleted, State.Complete, invocations, contractOK]
  | controllerCompleted ok =>
      cases cp <;> cases ok <;> cases iu <;> cases cb <;>
        simp [step, OnControllerCompleted, State.Complete, invocations,
          contractOK]
  | navigationCompleted ok =>
      cases nc <;> cases ok <;> cases wv <;> cases wv7 <;> cases cb <;>
        simp [step, OnNavigationCompleted, Print, State.Complete, invocations,
          contractOK]
  | printToPdfCompleted hrOk isSuccessful openOk readOk bytes =>
      cases pp <;> cases hrOk <;> cases isSuccessful <;> cases itf <;>
        cases openOk <;> cases readOk <;> cases cb <;>
        simp [step, OnPrintToPdfCompleted, State.Complete, invocations_append_win,
          invocations, contractOK]

/-- Argument-shape discipline for a whole windows event script. -/
theorem Windows.run_contract_win (wv7 : Bool) (evs : List Event) (s : State) :
    (invocations (run wv7 s evs).2).all contractOK = true := by
  induction evs generalizing s with
  | nil => simp [run, invocations]
  | cons ev evs ih =>
      have h1 := step_contract_win s wv7 ev
      have h2 := ih (step s wv7 ev).1
      simp only [run, invocations_append_win, List.all_append]
      simp [h1, h2]

/-- `Generate` emits no invocation at all. -/
theorem Windows.generate_no_invocation (s : State) (args : GenArgs)
    (tempOk : Bool) (tempName : String) :
    invocations (Generate s args tempOk tempName).2 = [] := by
  cases hp : args.pathGiven <;> simp [Generate, invocations, hp]

/-- An event that is not a successful navigation completion never issues
`PrintToPdf`. -/
theorem Windows.step_no_print_win (s : State) (wv7 : Bool) (ev : Event)
    (h : isNavSuccess ev = false) :
    printIssuedCount (step s wv7 ev).2 = 0 := by
  obtain ⟨cb, ud, op, itf, ct, iu, ep, cp, ctl, wv, nc, pp, fd⟩ := s
  cases ev with
  | envCompleted ok =>
      cases ep <;> cases ok <;> cases cb <;>
        simp [step, OnEnvCompleted, State.Complete, printIssuedCount]
  | controllerCompleted ok =>
      cases cp <;> cases ok <;> cases iu <;> cases cb <;>
        simp [step, OnControllerCompleted, State.Complete, printIssuedCount]
  | navigationCompleted ok =>
      cases nc <;> cases ok <;> cases wv <;> cases wv7 <;> cases cb <;>
        simp_all [step, OnNavigationCompleted, Print, State.Complete,
          printIssuedCount, isNavSuccess]
  | printToPdfCompleted hrOk isSuccessful openOk readOk bytes =>
      cases pp <;> cases hrOk <;> cases isSuccessful <;> cases itf <;>
        cases openOk <;> cases readOk <;> cases cb <;>
        simp [step, OnPrintToPdfCompleted, State.Complete,
          printIssuedCount_append_win, printIssuedCount]

/-- A windows script that never delivers a successful navigation never
issues `PrintToPdf`. -/
theorem Windows.run_no_print_win (wv7 : Bool) (evs : List Event) (s : State)
    (h : evs.all (fun ev => !isNavSuccess ev) = true) :
    printIssuedCount (run wv7 s evs).2 = 0 := by
  induction evs generalizing s with
  | nil => simp [run, printIssuedCount]
  | cons ev evs ih =>
      simp only [List.all_cons, Bool.and_eq_true, Bool.not_eq_true'] at h
      have h1 := step_no_print_win s wv7 ev h.1
      have h2 := ih (step s wv7 ev).1 h.2
      simp only [run, printIssuedCount_append_win]
      omega

/-- When the `ICoreWebView2_7` cast fails, no event whatsoever can issue
`PrintToPdf`. -/
theorem Windows.step_no_print_no7 (s : State) (ev : Event) :
    printIssuedCount (step s false ev).2 = 0 := by
  obtain ⟨cb, ud, op, itf, ct, iu, ep, cp, ctl, wv, nc, pp, fd⟩ := s
  cases ev with
  | envCompleted ok =>
      cases ep <;> cases ok <;> cases cb <;>
        simp [step, OnEnvCompleted, State.Complete, printIssuedCount]
  | controllerCompleted ok =>
      cases cp <;> cases ok <;> cases iu <;> cases cb <;>
        simp [step, OnControllerCompleted, State.Complete, printIssuedCount]
  | navigationCompleted ok =>
      cases nc <;> cases ok <;> cases wv <;> cases cb <;>
        simp [step, OnNavigationCompleted, Print, State.Complete,
          printIssuedCount]
  | printToPdfCompleted hrOk isSuccessful openOk readOk bytes =>
      cases pp <;> cases hrOk <;> cases isSuccessful <;> cases itf <;>
        cases openOk <;> cases readOk <;> cases cb <;>
        simp [step, OnPrintToPdfCompleted, State.Complete,
          printIssuedCount_append_win, printIssuedCount]

/-- On a too-old WebView2 runtime, a whole run never issues `PrintToPdf`. -/
theorem Windows.run_no_print_no7 (evs : List Event) (s : State) :
    printIssuedCount (run false s evs).2 = 0 := by
  induction evs generalizing s with
  | nil => simp [run, printIssuedCount]
  | cons ev evs ih =>
      have h1 := step_no_print_no7 s ev
      have h2 := ih (step s false ev).1
      simp only [run, printIssuedCount_append_win]
      omega

/-- `Generate` itself never issues `PrintToPdf`. -/
theorem Windows.generate_no_print_win (s : State) (args : GenArgs)
    (tempOk : Bool) (tempName : String) :
    printIssuedCount (Generate s args tempOk tempName).2 = 0 := by
  cases hp : args.pathGiven <;> simp [Generate, printIssuedCount, hp]

/-! ### Claims -/

/-- C1: For every `Generate` call, the completion callback is invoked
exactly once regardless of which terminal branch is taken, and once
invoked the stored callback is cleared and never invoked again.
Formalised as (i) credit conservation on both platforms — over every
possible event script the number of invocations plus the still-stored
callback bit equals the one callback handed to `Generate`, so at most one
invocation ever happens, a consumed callback is cleared, and no later
event can deliver it again — and (ii) every terminal branch of either
platform (linux: temp-file fast-fail, print failure, temp-file open
failure, read failure, temp success, caller-path success, a
failed-then-finished double terminal delivery; windows: environment
failure, controller failure, navigation failure, print-capability
failure, print failure, open failure, read failure, temp success,
caller-path success, a double navigation delivery) invokes it exactly
once. -/
theorem C1_callback_exactly_once :
    (∀ (args : GenArgs) (mk : Option String) (evs : List Linux.Event),
        (Linux.invocations (Linux.engineRun args mk evs).2).length
            + credit (Linux.engineRun args mk evs).1.callback_
          = credit args.callbackSet)
    ∧ (∀ (args : GenArgs) (tempOk : Bool) (tempName : String) (wv7 : Bool)
          (evs : List Windows.Event),
        (Windows.invocations
              (Windows.engineRun args tempOk tempName wv7 evs).2).length
            + credit (Windows.engineRun args tempOk tempName wv7 evs).1.callback_
          = credit args.callbackSet)
    ∧ ((Linux.invocations
          (Linux.engineRun ⟨"<p>a</p>", false, none, true, 0⟩ none []).2).length = 1
      ∧ (Linux.invocations
          (Linux.engineRun ⟨"<p>a</p>", false, none, true, 0⟩ (some "/tmp/pdf_a")
            [Linux.Event.loadChanged Linux.WebKitLoadEvent.finished,
             Linux.Event.printFailed (some "boom")]).2).length = 1
      ∧ (Linux.invocations
          (Linux.engineRun ⟨"<p>a</p>", false, none, true, 0⟩ (some "/tmp/pdf_a")
            [Linux.Event.loadChanged Linux.WebKitLoadEvent.finished,
             Linux.Event.printFinished false false []]).2).length = 1
      ∧ (Linux.invocations
          (Linux.engineRun ⟨"<p>a</p>", false, none, true, 0⟩ (some "/tmp/pdf_a")
            [Linux.Event.loadChanged Linux.WebKitLoadEvent.finished,
             Linux.Event.printFinished true false []]).2).length = 1
      ∧ (Linux.invocations
          (Linux.engineRun ⟨"<p>a</p>", false, none, true, 0⟩ (some "/tmp/pdf_a")
            [Linux.Event.loadChanged Linux.WebKitLoadEvent.finished,
             Linux.Event.printFinished true true [37, 80, 68, 70]]).2).length = 1
      ∧ (Linux.invocations
          (Linux.engineRun ⟨"<p>a</p>", false, some "/out.pdf", true, 0⟩ none
            [Linux.Event.loadChanged Linux.WebKitLoadEvent.finished,
             Linux.Event.printFinished true true []]).2).length = 1
      ∧ (Linux.invocations
          (Linux.engineRun ⟨"<p>a</p>", false, none, true, 0⟩ (some "/tmp/pdf_a")
            [Linux.Event.loadChanged Linux.WebKitLoadEvent.finished,
             Linux.Event.printFailed (some "boom"),
             Linux.Event.printFinished true true [1]]).2).length = 1
      ∧ (Windows.invocations
          (Windows.engineRun ⟨"<p>a</p>", false, none, true, 0⟩ true "T.tmp" true
            [Windows.Event.envCompleted false]).2).length = 1
      ∧ (Windows.invocations
          (Windows.engineRun ⟨"<p>a</p>", false, none, true, 0⟩ true "T.tmp" true
            [Windows.Event.envCompleted true,
             Windows.Event.controllerCompleted false]).2).length = 1
      ∧ (Windows.invocations
          (Windows.engineRun ⟨"<p>a</p>", false, none, true, 0⟩ true "T.tmp" true
            [Windows.Event.envCompleted true,
             Windows.Event.controllerCompleted true,
             Windows.Event.navigationCompleted false]).2).length = 1
      ∧ (Windows.invocations
          (Windows.engineRun ⟨"<p>a</p>", false, none, true, 0⟩ true "T.tmp" false
            [Windows.Event.envCompleted true,
             Windows.Event.controllerCompleted true,
             Windows.Event.navigationCompleted true]).2).length = 1
      ∧ (Windows.invocations
          (Windows.engineRun ⟨"<p>a</p>", false, none, true, 0⟩ true "T.tmp" true
            [Windows.Event.envCompleted true,
             Windows.Event.controllerCompleted true,
             Windows.Event.navigationCompleted true,
             Windows.Event.printToPdfCompleted false true true true []]).2).length = 1
      ∧ (Windows.invocations
          (Windows.engineRun ⟨"<p>a</p>", false, none, true, 0⟩ true "T.tmp" true
            [Windows.Event.envCompleted true,
             Windows.Event.controllerCompleted true,
             Windows.Event.navigationCompleted true,
             Windows.Event.printToPdfCompleted true true false false []]).2).length = 1
      ∧ (Windows.invocations
          (Windows.engineRun ⟨"<p>a</p>", false, none, true, 0⟩ true "T.tmp" true
            [Windows.Event.envCompleted true,
             Windows.Event.controllerCompleted true,
             Windows.Event.navigationCompleted true,
             Windows.Event.printToPdfCompleted true true true false []]).2).length = 1
      ∧ (Windows.invocations
          (Windows.engineRun ⟨"<p>a</p>", false, none, true, 0⟩ true "T.tmp" true
            [Windows.Event.envCompleted true,
             Windows.Event.controllerCompleted true,
             Windows.Event.navigationCompleted true,
             Windows.Event.printToPdfCompleted true true true true [1, 2]]).2).length = 1
      ∧ (Windows.invocations
          (Windows.engineRun ⟨"<p>a</p>", false, some "C:o.pdf", true, 0⟩ true
            "T.tmp" true
            [Windows.Event.envCompleted true,
             Windows.Event.controllerCompleted true,
             Windows.Event.navigationCompleted true,
             Windows.Event.printToPdfCompleted true true true true []]).2).length = 1
      ∧ (Windows.invocations
          (Windows.engineRun ⟨"<p>a</p>", false, none, true, 0⟩ true "T.tmp" true
            [Windows.Event.envCompleted true,
             Windows.Event.controllerCompleted true,
             Windows.Event.navigationCompleted false,
             Windows.Event.navigationCompleted true,
             Windows.Event.printToPdfCompleted true true true true []]).2).length
          = 1) := by
  refine ⟨?_, ?_, ?_⟩
  · intro args mk evs
    have h1 := Linux.generate_credit Linux.initialState args mk
    have h2 := Linux.run_credit evs (Linux.Generate Linux.initialState args mk).1
    simp only [Linux.engineRun, Linux.invocations_append, List.length_append]
    omega
  · intro args tempOk tempName wv7 evs
    have h1 := Windows.generate_credit_win Windows.initialState args tempOk tempName
    have h2 := Windows.run_credit_win wv7 evs
      (Windows.Generate Windows.initialState args tempOk tempName).1
    simp only [Windows.engineRun, Windows.invocations_append_win, List.length_append]
    omega
  · decide

/-- C10: Every invocation of the completion callback with `success=false`
passes a null data pointer and length `0`, and every invocation with
`success=true` passes a null `error_message`, on both platforms and
across all terminal branches: every invocation emitted by any run of
either engine satisfies `contractOK`. -/
theorem C10_invocation_argument_shape :
    (∀ (args : GenArgs) (mk : Option String) (evs : List Linux.Event),
        (Linux.invocations (Linux.engineRun args mk evs).2).all contractOK = true)
    ∧ (∀ (args : GenArgs) (tempOk : Bool) (tempName : String) (wv7 : Bool)
          (evs : List Windows.Event),
        (Windows.invocations
            (Windows.engineRun args tempOk tempName wv7 evs).2).all contractOK
          = true) := by
  constructor
  · intro args mk evs
    have h1 := Linux.generate_contract Linux.initialState args mk
    have h2 := Linux.run_contract evs (Linux.Generate Linux.initialState args mk).1
    simp only [Linux.engineRun, Linux.invocations_append, List.all_append]
    simp [h1, h2]
  · intro args tempOk tempName wv7 evs
    have h1 := Windows.generate_no_invocation Windows.initialState args tempOk
      tempName
    have h2 := Windows.run_contract_win wv7 evs
      (Windows.Generate Windows.initialState args tempOk tempName).1
    simp only [Windows.engineRun, Windows.invocations_append_win, List.all_append]
    simp [h1, h2]

/-- C2 counterexample: on the linux implementation the claim fails.  With
`isUrl=true` and a working temp file, the render surface reports a load
failure (WebKit's `load-failed` signal, an outcome distinct from
load-finished) — and the pipeline invokes no callback at all (the claim
says it is invoked with `success=false`): the engine only ever connects
the `load-changed` signal, never `load-failed`. -/
theorem C2_load_failure_counterexample :
    Linux.invocations
        (Linux.engineRun ⟨"http://unresolvable.invalid/", true, none, true, 5⟩
          (some "/tmp/pdf_C2x")
          [Linux.Event.loadFailed "Could not connect"]).2 = []
    ∧ Linux.printIssuedCount
        (Linux.engineRun ⟨"http://unresolvable.invalid/", true, none, true, 5⟩
          (some "/tmp/pdf_C2x")
          [Linux.Event.loadFailed "Could not connect"]).2 = 0 := by
  decide

/-- C2 amended: on windows, a navigation/load failure invokes the
completion callback with `success=false` (`"Navigation failed"`), and as
long as no successful navigation is ever reported `PrintToPdf` is never
issued.  On linux no handler is connected for load-failure reports: such
an event changes no state and emits nothing (no failure callback is
delivered), and without a load-finished event printing is likewise never
issued. -/
theorem C2_navigation_failure_policy :
    (∀ (s : Linux.State) (msg : String),
        Linux.step s (Linux.Event.loadFailed msg) = (s, []))
    ∧ (∀ (s : Windows.State) (wv7 : Bool),
        s.callback_ = true →
        Windows.invocations (Windows.OnNavigationCompleted s false wv7).2
          = [⟨false, some "Navigation failed", none, 0, s.user_data_⟩])
    ∧ (∀ (args : GenArgs) (tempOk : Bool) (tempName : String) (wv7 : Bool)
          (evs : List Windows.Event),
        evs.all (fun ev => !Windows.isNavSuccess ev) = true →
        Windows.printIssuedCount
          (Windows.engineRun args tempOk tempName wv7 evs).2 = 0)
    ∧ (∀ (args : GenArgs) (mk : Option String) (evs : List Linux.Event),
        evs.all (fun ev => !Linux.isLoadFinished ev) = true →
        Linux.printIssuedCount (Linux.engineRun args mk evs).2 = 0) := by
  refine ⟨fun s msg => rfl, ?_, ?_, ?_⟩
  · intro s wv7 h
    simp [Windows.OnNavigationCompleted, Windows.State.Complete,
      Windows.invocations, h]
  · intro args tempOk tempName wv7 evs h
    have h1 := Windows.generate_no_print_win Windows.initialState args tempOk tempName
    have h2 := Windows.run_no_print_win wv7 evs
      (Windows.Generate Windows.initialState args tempOk tempName).1 h
    simp only [Windows.engineRun, Windows.printIssuedCount_append_win]
    omega
  · intro args mk evs h
    have h1 := Linux.generate_no_print Linux.initialState args mk
    have h2 := Linux.run_no_print evs
      (Linux.Generate Linux.initialState args mk).1 h
    simp only [Linux.engineRun, Linux.printIssuedCount_append]
    omega

/-- Witness for `C2_navigation_failure_policy` at concrete inputs. -/
theorem C2_navigation_failure_policy_witness :
    Linux.step
        { callback_ := true, user_data_ := 5, output_path_ := "/tmp/pdf_w"
          is_temp_file_ := true, webview_ := true, printConnected := false
          fileOnDisk := true }
        (Linux.Event.loadFailed "timeout")
      = ({ callback_ := true, user_data_ := 5, output_path_ := "/tmp/pdf_w"
           is_temp_file_ := true, webview_ := true, printConnected := false
           fileOnDisk := true }, [])
    ∧ Windows.invocations
        (Windows.OnNavigationCompleted
          { callback_ := true, user_data_ := 5, output_path_ := "T.tmp"
            is_temp_file_ := true, content_ := "u", is_url_ := true
            envPending := false, controllerPending := false
            controller_ := true, webview_ := true, navConnected := true
            printPending := false, fileOnDisk := true } false true).2
      = [⟨false, some "Navigation failed", none, 0, 5⟩]
    ∧ Windows.printIssuedCount
        (Windows.engineRun ⟨"u", true, none, true, 0⟩ true "T.tmp" true
          [Windows.Event.envCompleted true,
           Windows.Event.controllerCompleted true,
           Windows.Event.navigationCompleted false]).2 = 0
    ∧ Linux.printIssuedCount
        (Linux.engineRun ⟨"u", true, none, true, 0⟩ (some "/tmp/pdf_w")
          [Linux.Event.loadFailed "timeout"]).2 = 0 :=
  ⟨C2_navigation_failure_policy.1 _ "timeout",
   C2_navigation_failure_policy.2.1 _ true rfl,
   C2_navigation_failure_policy.2.2.1 _ _ _ _ _ (by decide),
   C2_navigation_failure_policy.2.2.2 _ _ _ (by decide)⟩

/-- C3 counterexample: on the windows implementation the claim fails.
With an empty `outputPath` and temporary-file creation failing
(`tempOk = false`), `Generate` does not invoke the callback at all and
still requests the WebView2 environment — the `GetTempFileNameW` result
is never checked, so the temporary path is not verified creatable before
rendering work begins. -/
theorem C3_temp_fail_counterexample :
    (Windows.Generate Windows.initialState ⟨"<p>a</p>", false, none, true, 7⟩
        false "C:PDF1.tmp").2 = [Windows.Action.envRequested]
    ∧ (Windows.Generate Windows.initialState ⟨"<p>a</p>", false, none, true, 7⟩
        false "C:PDF1.tmp").1.is_temp_file_ = true := by
  decide

/-- C3 amended: only the linux implementation fast-fails.  On linux, if
`output_path` is null (or empty) and `mkstemp` fails, `Generate`
synchronously invokes the callback with `success=false`
(`"Failed to create temp file"`) and returns before any webview exists.
On windows the result of temp-file creation is ignored: `Generate` emits
no invocation and proceeds to request the render environment even when
creation failed. -/
theorem C3_temp_fail_fast_linux_only :
    (∀ (content : String) (u : Bool) (ud : Nat),
        (Linux.Generate Linux.initialState ⟨content, u, none, true, ud⟩ none).2
            = [Linux.Action.invoke
                ⟨false, some "Failed to create temp file", none, 0, ud⟩]
          ∧ (Linux.Generate Linux.initialState ⟨content, u, none, true, ud⟩
              none).1.webview_ = false)
    ∧ (∀ (content : String) (u : Bool) (ud : Nat),
        (Linux.Generate Linux.initialState ⟨content, u, some "", true, ud⟩
            none).2
          = [Linux.Action.invoke
              ⟨false, some "Failed to create temp file", none, 0, ud⟩])
    ∧ (∀ (content tempName : String) (u : Bool) (ud : Nat),
        (Windows.Generate Windows.initialState ⟨content, u, none, true, ud⟩
            false tempName).2
          = [Windows.Action.envRequested]) :=
  ⟨fun _ _ _ => ⟨rfl, rfl⟩, fun _ _ _ => rfl, fun _ _ _ _ => rfl⟩

/-- C4 counterexample: the stored callback reference is NOT consumed
(read and cleared) before it is invoked — `Complete` checks `callback_`,
invokes it, and only afterwards assigns `nullptr` — and consequently a
delivery that re-enters `Complete` from inside the callback (for example
through a nested event loop) invokes the callback twice. -/
theorem C4_consume_order_counterexample :
    consumesBeforeInvoke completeBody = false
    ∧ (Linux.completeReentrant
        { callback_ := true, user_data_ := 4, output_path_ := "/tmp/pdf_q"
          is_temp_file_ := true, webview_ := true, printConnected := true
          fileOnDisk := true }).2 = 2 := by
  decide

/-- C4 amended: `Complete` checks the stored callback, invokes it, and
clears it only after the invocation returns.  Because the first delivery
does clear the reference, a second SEQUENTIAL delivery of a terminal
event invokes nothing — on both platforms, any `Complete` leaves
`callback_` null and a `Complete` run after another `Complete` emits no
invocation — but the clear-after-invoke order means reentrant delivery
from inside the callback is not excluded. -/
theorem C4_sequential_exactly_once :
    (∀ (s : Linux.State) (a : Bool) (b : Option String)
        (c : Option (List Nat)) (d : Nat),
        (Linux.State.Complete s a b c d).1.callback_ = false)
    ∧ (∀ (s : Linux.State) (a a2 : Bool) (b b2 : Option String)
          (c c2 : Option (List Nat)) (d d2 : Nat),
        (Linux.State.Complete (Linux.State.Complete s a b c d).1
            a2 b2 c2 d2).2 = [])
    ∧ (∀ (s : Windows.State) (a : Bool) (b : Option String)
          (c : Option (List Nat)) (d : Nat),
        (Windows.State.Complete s a b c d).1.callback_ = false)
    ∧ (∀ (s : Windows.State) (a a2 : Bool) (b b2 : Option String)
          (c c2 : Option (List Nat)) (d d2 : Nat),
        (Windows.State.Complete (Windows.State.Complete s a b c d).1
            a2 b2 c2 d2).2 = []) := by
  refine ⟨?_, ?_, ?_, ?_⟩
  · intro s a b c d
    cases hcb : s.callback_ <;> simp [Linux.State.Complete, hcb]
  · intro s a a2 b b2 c c2 d d2
    cases hcb : s.callback_ <;> simp [Linux.State.Complete, hcb]
  · intro s a b c d
    cases hcb : s.callback_ <;> simp [Windows.State.Complete, hcb]
  · intro s a a2 b b2 c c2 d d2
    cases hcb : s.callback_ <;> simp [Windows.State.Complete, hcb]

/-- C5 counterexample: the temp path is used as a print target, yet on
the terminal path where the temp file cannot be opened back, no deletion
is attempted — on either platform (the `unlink`/`DeleteFileW` calls sit
inside the open-success branch).  The print-failure terminal path attempts
no deletion either. -/
theorem C5_deletion_counterexample :
    Linux.printIssuedCount
        (Linux.engineRun ⟨"<h1>x</h1>", false, none, true, 3⟩
          (some "/tmp/pdf_C5")
          [Linux.Event.loadChanged Linux.WebKitLoadEvent.finished,
           Linux.Event.printFinished false false []]).2 = 1
    ∧ Linux.unlinkCount
        (Linux.engineRun ⟨"<h1>x</h1>", false, none, true, 3⟩
          (some "/tmp/pdf_C5")
          [Linux.Event.loadChanged Linux.WebKitLoadEvent.finished,
           Linux.Event.printFinished false false []]).2 = 0
    ∧ Linux.invocations
        (Linux.engineRun ⟨"<h1>x</h1>", false, none, true, 3⟩
          (some "/tmp/pdf_C5")
          [Linux.Event.loadChanged Linux.WebKitLoadEvent.finished,
           Linux.Event.printFinished false false []]).2
      = [⟨false, some "Failed to open back temp PDF file", none, 0, 3⟩]
    ∧ Linux.printIssuedCount
        (Linux.engineRun ⟨"<h1>x</h1>", false, none, true, 3⟩
          (some "/tmp/pdf_C5")
          [Linux.Event.loadChanged Linux.WebKitLoadEvent.finished,
           Linux.Event.printFailed (some "printer error")]).2 = 1
    ∧ Linux.unlinkCount
        (Linux.engineRun ⟨"<h1>x</h1>", false, none, true, 3⟩
          (some "/tmp/pdf_C5")
          [Linux.Event.loadChanged Linux.WebKitLoadEvent.finished,
           Linux.Event.printFailed (some "printer error")]).2 = 0
    ∧ Windows.printIssuedCount
        (Windows.engineRun ⟨"<h1>x</h1>", false, none, true, 3⟩ true "C5.tmp"
          true
          [Windows.Event.envCompleted true,
           Windows.Event.controllerCompleted true,
           Windows.Event.navigationCompleted true,
           Windows.Event.printToPdfCompleted true true false false []]).2 = 1
    ∧ Windows.deleteCount
        (Windows.engineRun ⟨"<h1>x</h1>", false, none, true, 3⟩ true "C5.tmp"
          true
          [Windows.Event.envCompleted true,
           Windows.Event.controllerCompleted true,
           Windows.Event.navigationCompleted true,
           Windows.Event.printToPdfCompleted true true false false []]).2
      = 0 := by
  decide

/-- C5 amended: deletion of the temporary file is attempted exactly on
the terminal paths where the post-print open of the temp file succeeded
(both read-success and read-failure), and never when the open fails or
when the print itself fails.  Stated over the print-completion handlers
for a session whose resolved path is a temp file. -/
theorem C5_deletion_exactly_on_open :
    (∀ (cb : Bool) (ud : Nat) (path : String) (wv pc fd : Bool)
        (openOk readOk : Bool) (bytes : List Nat),
        Linux.unlinkCount
          (Linux.OnPrintFinished
            { callback_ := cb, user_data_ := ud, output_path_ := path
              is_temp_file_ := true, webview_ := wv, printConnected := pc
              fileOnDisk := fd } openOk readOk bytes).2
          = if openOk then 1 else 0)
    ∧ (∀ (s : Linux.State) (error : Option String),
        Linux.unlinkCount (Linux.OnPrintFailed s error).2 = 0)
    ∧ (∀ (cb : Bool) (ud : Nat) (path content : String)
          (iu ep cp ctl wv nc pp fd : Bool)
          (hrOk isSuccessful openOk readOk : Bool) (bytes : List Nat),
        Windows.deleteCount
          (Windows.OnPrintToPdfCompleted
            { callback_ := cb, user_data_ := ud, output_path_ := path
              is_temp_file_ := true, content_ := content, is_url_ := iu
              envPending := ep, controllerPending := cp, controller_ := ctl
              webview_ := wv, navConnected := nc, printPending := pp
              fileOnDisk := fd } hrOk isSuccessful openOk readOk bytes).2
          = if hrOk && isSuccessful && openOk then 1 else 0) := by
  refine ⟨?_, ?_, ?_⟩
  · intro cb ud path wv pc fd openOk readOk bytes
    cases openOk <;> cases readOk <;> cases cb <;>
      simp [Linux.OnPrintFinished, Linux.State.Complete,
        Linux.unlinkCount_append, Linux.unlinkCount]
  · intro s error
    cases hcb : s.callback_ <;>
      simp [Linux.OnPrintFailed, Linux.State.Complete, Linux.unlinkCount, hcb]
  · intro cb ud path content iu ep cp ctl wv nc pp fd hrOk isSuccessful openOk
      readOk bytes
    cases hrOk <;> cases isSuccessful <;> cases openOk <;> cases readOk <;>
      cases cb <;>
      simp [Windows.OnPrintToPdfCompleted, Windows.State.Complete,
        Windows.deleteCount_append, Windows.deleteCount]

/-- C6 counterexample: `isUrl=true`, empty `outputPath`, navigation
fails.  On windows the call does complete with `"Navigation failed"` and
printing is never attempted, but the temporary file created eagerly by
`GetTempFileNameW` is never deleted and remains on disk — contradicting
the claim that no temporary file is left behind.  On linux the failure is
not even reported (no callback) and the `mkstemp` file remains as well. -/
theorem C6_temp_file_left_counterexample :
    (Windows.engineRun ⟨"http://unresolvable.invalid/", true, none, true, 9⟩
        true "C:PDF9.tmp" true
        [Windows.Event.envCompleted true,
         Windows.Event.controllerCompleted true,
         Windows.Event.navigationCompleted false]).1.fileOnDisk = true
    ∧ Windows.invocations
        (Windows.engineRun ⟨"http://unresolvable.invalid/", true, none, true, 9⟩
          true "C:PDF9.tmp" true
          [Windows.Event.envCompleted true,
           Windows.Event.controllerCompleted true,
           Windows.Event.navigationCompleted false]).2
      = [⟨false, some "Navigation failed", none, 0, 9⟩]
    ∧ Windows.deleteCount
        (Windows.engineRun ⟨"http://unresolvable.invalid/", true, none, true, 9⟩
          true "C:PDF9.tmp" true
          [Windows.Event.envCompleted true,
           Windows.Event.controllerCompleted true,
           Windows.Event.navigationCompleted false]).2 = 0
    ∧ (Linux.engineRun ⟨"http://unresolvable.invalid/", true, none, true, 9⟩
        (some "/tmp/pdf_C6")
        [Linux.Event.loadFailed "Could not resolve host"]).1.fileOnDisk = true
    ∧ Linux.invocations
        (Linux.engineRun ⟨"http://unresolvable.invalid/", true, none, true, 9⟩
          (some "/tmp/pdf_C6")
          [Linux.Event.loadFailed "Could not resolve host"]).2 = [] := by
  decide

/-- C6 amended: with `isUrl=true` and an empty `outputPath`, a navigation
failure on windows completes with `"Navigation failed"` and never issues
or deletes anything — so the eagerly created temporary file remains on
disk; on linux the load failure triggers no completion, no print and no
deletion, and the temporary file remains on disk as well. -/
theorem C6_nav_failure_effects :
    (∀ (url tempName : String) (ud : Nat),
        Windows.invocations
            (Windows.engineRun ⟨url, true, none, true, ud⟩ true tempName true
              [Windows.Event.envCompleted true,
               Windows.Event.controllerCompleted true,
               Windows.Event.navigationCompleted false]).2
          = [⟨false, some "Navigation failed", none, 0, ud⟩]
        ∧ Windows.printIssuedCount
            (Windows.engineRun ⟨url, true, none, true, ud⟩ true tempName true
              [Windows.Event.envCompleted true,
               Windows.Event.controllerCompleted true,
               Windows.Event.navigationCompleted false]).2 = 0
        ∧ Windows.deleteCount
            (Windows.engineRun ⟨url, true, none, true, ud⟩ true tempName true
              [Windows.Event.envCompleted true,
               Windows.Event.controllerCompleted true,
               Windows.Event.navigationCompleted false]).2 = 0
        ∧ (Windows.engineRun ⟨url, true, none, true, ud⟩ true tempName true
              [Windows.Event.envCompleted true,
               Windows.Event.controllerCompleted true,
               Windows.Event.navigationCompleted false]).1.fileOnDisk = true)
    ∧ (∀ (url temp msg : String) (ud : Nat),
        Linux.invocations
            (Linux.engineRun ⟨url, true, none, true, ud⟩ (some temp)
              [Linux.Event.loadFailed msg]).2 = []
        ∧ Linux.printIssuedCount
            (Linux.engineRun ⟨url, true, none, true, ud⟩ (some temp)
              [Linux.Event.loadFailed msg]).2 = 0
        ∧ Linux.unlinkCount
            (Linux.engineRun ⟨url, true, none, true, ud⟩ (some temp)
              [Linux.Event.loadFailed msg]).2 = 0
        ∧ (Linux.engineRun ⟨url, true, none, true, ud⟩ (some temp)
              [Linux.Event.loadFailed msg]).1.fileOnDisk = true) :=
  ⟨fun _ _ _ => ⟨rfl, rfl, rfl, rfl⟩, fun _ _ _ _ => ⟨rfl, rfl, rfl, rfl⟩⟩

/-- C7: with a non-empty caller-supplied `outputPath` and a successful
print, the callback is invoked with `success=true`, a null data pointer
and length `0`, and the produced PDF remains on disk at `outputPath`
(the engine neither reads it back nor deletes it), on both platforms. -/
theorem C7_caller_path_success :
    (∀ (content p : String) (u : Bool) (ud : Nat) (mk : Option String)
        (openOk readOk : Bool) (bytes : List Nat),
        0 < p.length →
        Linux.invocations
            (Linux.engineRun ⟨content, u, some p, true, ud⟩ mk
              [Linux.Event.loadChanged Linux.WebKitLoadEvent.finished,
               Linux.Event.printFinished openOk readOk bytes]).2
          = [⟨true, none, none, 0, ud⟩]
        ∧ (Linux.engineRun ⟨content, u, some p, true, ud⟩ mk
              [Linux.Event.loadChanged Linux.WebKitLoadEvent.finished,
               Linux.Event.printFinished openOk readOk bytes]).1.fileOnDisk
          = true
        ∧ (Linux.engineRun ⟨content, u, some p, true, ud⟩ mk
              [Linux.Event.loadChanged Linux.WebKitLoadEvent.finished,
               Linux.Event.printFinished openOk readOk bytes]).1.output_path_
          = p)
    ∧ (∀ (content p tempName : String) (u tempOk : Bool) (ud : Nat)
          (openOk readOk : Bool) (bytes : List Nat),
        0 < p.length →
        Windows.invocations
            (Windows.engineRun ⟨content, u, some p, true, ud⟩ tempOk tempName
              true
              [Windows.Event.envCompleted true,
               Windows.Event.controllerCompleted true,
               Windows.Event.navigationCompleted true,
               Windows.Event.printToPdfCompleted true true openOk readOk
                 bytes]).2
          = [⟨true, none, none, 0, ud⟩]
        ∧ (Windows.engineRun ⟨content, u, some p, true, ud⟩ tempOk tempName
              true
              [Windows.Event.envCompleted true,
               Windows.Event.controllerCompleted true,
               Windows.Event.navigationCompleted true,
               Windows.Event.printToPdfCompleted true true openOk readOk
                 bytes]).1.fileOnDisk = true
        ∧ (Windows.engineRun ⟨content, u, some p, true, ud⟩ tempOk tempName
              true
              [Windows.Event.envCompleted true,
               Windows.Event.controllerCompleted true,
               Windows.Event.navigationCompleted true,
               Windows.Event.printToPdfCompleted true true openOk readOk
                 bytes]).1.output_path_ = p) := by
  constructor
  · intro content p u ud mk openOk readOk bytes h
    have hp : GenArgs.pathGiven ⟨content, u, some p, true, ud⟩ = true := by
      simp [GenArgs.pathGiven, h]
    cases u <;>
      refine ⟨?_, ?_, ?_⟩ <;>
      simp [Linux.engineRun, Linux.Generate, hp, Linux.startLoad, Linux.run,
        Linux.step, Linux.OnLoadChanged, Linux.State.Print,
        Linux.OnPrintFinished, Linux.State.Complete, Linux.invocations]
  · intro content p tempName u tempOk ud openOk readOk bytes h
    have hp : GenArgs.pathGiven ⟨content, u, some p, true, ud⟩ = true := by
      simp [GenArgs.pathGiven, h]
    cases u <;>
      refine ⟨?_, ?_, ?_⟩ <;>
      simp [Windows.engineRun, Windows.Generate, hp, Windows.run, Windows.step,
        Windows.OnEnvCompleted, Windows.OnControllerCompleted,
        Windows.OnNavigationCompleted, Windows.Print,
        Windows.OnPrintToPdfCompleted, Windows.State.Complete,
        Windows.invocations]

/-- Witness for `C7_caller_path_success` at concrete inputs. -/
theorem C7_caller_path_success_witness :
    (0 < "/out.pdf".length
      ∧ Linux.invocations
            (Linux.engineRun ⟨"<p>a</p>", false, some "/out.pdf", true, 2⟩ none
              [Linux.Event.loadChanged Linux.WebKitLoadEvent.finished,
               Linux.Event.printFinished true true []]).2
          = [⟨true, none, none, 0, 2⟩]
        ∧ (Linux.engineRun ⟨"<p>a</p>", false, some "/out.pdf", true, 2⟩ none
              [Linux.Event.loadChanged Linux.WebKitLoadEvent.finished,
               Linux.Event.printFinished true true []]).1.fileOnDisk = true
        ∧ (Linux.engineRun ⟨"<p>a</p>", false, some "/out.pdf", true, 2⟩ none
              [Linux.Event.loadChanged Linux.WebKitLoadEvent.finished,
               Linux.Event.printFinished true true []]).1.output_path_
          = "/out.pdf")
    ∧ (0 < "C:o.pdf".length
      ∧ Windows.invocations
            (Windows.engineRun ⟨"<p>a</p>", false, some "C:o.pdf", true, 2⟩
              true "T.tmp" true
              [Windows.Event.envCompleted true,
               Windows.Event.controllerCompleted true,
               Windows.Event.navigationCompleted true,
               Windows.Event.printToPdfCompleted true true true true []]).2
          = [⟨true, none, none, 0, 2⟩]
        ∧ (Windows.engineRun ⟨"<p>a</p>", false, some "C:o.pdf", true, 2⟩
              true "T.tmp" true
              [Windows.Event.envCompleted true,
               Windows.Event.controllerCompleted true,
               Windows.Event.navigationCompleted true,
               Windows.Event.printToPdfCompleted true true true true
                 []]).1.fileOnDisk = true
        ∧ (Windows.engineRun ⟨"<p>a</p>", false, some "C:o.pdf", true, 2⟩
              true "T.tmp" true
              [Windows.Event.envCompleted true,
               Windows.Event.controllerCompleted true,
               Windows.Event.navigationCompleted true,
               Windows.Event.printToPdfCompleted true true true true
                 []]).1.output_path_ = "C:o.pdf") :=
  ⟨⟨by decide,
    C7_caller_path_success.1 "<p>a</p>" "/out.pdf" false 2 none true true []
      (by decide)⟩,
   ⟨by decide,
    C7_caller_path_success.2 "<p>a</p>" "C:o.pdf" "T.tmp" false true 2 true
      true [] (by decide)⟩⟩

/-- C8: on windows, when the `ICoreWebView2_7` interface cannot be
obtained (`webview7Ok = false`), no run can ever issue `PrintToPdf`, and
the navigation-success path completes with `success=false` carrying the
message naming the too-old WebView2 runtime (the message contains the
phrase `"too old"`). -/
theorem C8_print_capability_unavailable :
    (∀ (args : GenArgs) (tempOk : Bool) (tempName : String)
        (evs : List Windows.Event),
        Windows.printIssuedCount
          (Windows.engineRun args tempOk tempName false evs).2 = 0)
    ∧ (∀ (content tempName : String) (u tempOk : Bool) (ud : Nat),
        Windows.invocations
            (Windows.engineRun ⟨content, u, none, true, ud⟩ tempOk tempName
              false
              [Windows.Event.envCompleted true,
               Windows.Event.controllerCompleted true,
               Windows.Event.navigationCompleted true]).2
          = [⟨false, some Windows.tooOldMsg, none, 0, ud⟩])
    ∧ "too old".data <:+: Windows.tooOldMsg.data := by
  refine ⟨?_, ?_, by decide⟩
  · intro args tempOk tempName evs
    have h1 := Windows.generate_no_print_win Windows.initialState args tempOk
      tempName
    have h2 := Windows.run_no_print_no7 evs
      (Windows.Generate Windows.initialState args tempOk tempName).1
    simp only [Windows.engineRun, Windows.printIssuedCount_append_win]
    omega
  · intro content tempName u tempOk ud
    cases u <;> cases tempOk <;> rfl

/-- C9: calling `NativePdf_Generate` or `NativePdf_DestroyEngine` with a
null engine handle is a safe no-op on both platforms: the handle stays
null, no action is emitted (in particular no callback fires), and no
deletion takes place. -/
theorem C9_null_engine_noop :
    (∀ (args : GenArgs) (mk : Option String),
        Linux.NativePdf_Generate none args mk = (none, []))
    ∧ Linux.NativePdf_DestroyEngine none = false
    ∧ (∀ (args : GenArgs) (tempOk : Bool) (tempName : String),
        Windows.NativePdf_Generate none args tempOk tempName = (none, []))
    ∧ Windows.NativePdf_DestroyEngine none = false :=
  ⟨fun _ _ => rfl, rfl, fun _ _ _ => rfl, rfl⟩

